import Mathlib

/-!
Shallow embedding of `app.py` (X-ray detection web service) and proofs about it.

The Python source is embedded as executable Lean definitions:

* Python `float` values that hold probabilities, confidences and latencies are
  modelled as `ℚ`.
* The MySQL `predictions` table is modelled as a list of rows plus an
  auto-increment counter (`DB`).
* The Flask request/response cycle of each handler is modelled as a pure
  function from an explicit request plus an environment (timestamps, the
  secure-filename sanitizer, the random demo-mode sample, success/failure of
  the WEBP re-encode, of the model call and of the DB commit) to a response
  value together with the resulting table state and the files left in the
  upload directory.
* Python string helpers (`str.lower`, `str.strip`, `rsplit(".", 1)`,
  `os.path.basename`, `lstrip("/")`) are re-implemented over `List Char` so
  that every definition evaluates by kernel reduction.

Each claim theorem cites the corresponding lines of `app.py`.
-/

/-! ## Python string primitives, re-implemented over `List Char` -/

/-- Python whitespace for `str.strip()` / `int()` argument stripping. -/
def pyIsSpace (c : Char) : Bool :=
  c = ' ' ∨ c = '\t' ∨ c = '\n' ∨ c = '\r' ∨ c = '\x0b' ∨ c = '\x0c'

/-- Python `s.strip()` (whitespace from both ends). -/
def pyStrip (s : String) : String :=
  ⟨((s.data.dropWhile pyIsSpace).reverse.dropWhile pyIsSpace).reverse⟩

/-- ASCII lower-casing, the fragment of Python `str.lower()` relevant to
file extensions (all of which are ASCII). -/
def pyLower (s : String) : String :=
  ⟨s.data.map Char.toLower⟩

/-- Characters after the last occurrence of `sep`; the whole string when
`sep` does not occur.  This is Python `s.rsplit(sep, 1)[-1]`. -/
def afterLast (sep : Char) (s : String) : String :=
  ⟨(s.data.reverse.takeWhile (fun c => ¬ c = sep)).reverse⟩

/-- Characters before the last occurrence of `sep`; the whole string when
`sep` does not occur.  This is Python `s.rsplit(sep, 1)[0]`. -/
def beforeLast (sep : Char) (s : String) : String :=
  if s.data.contains sep then
    ⟨((s.data.reverse.dropWhile (fun c => ¬ c = sep)).drop 1).reverse⟩
  else s

/-- Python `os.path.basename` (the part after the last slash). -/
def pyBasename (s : String) : String := afterLast '/' s

/-- Python `s.lstrip("/")`. -/
def lstripSlash (s : String) : String :=
  ⟨s.data.dropWhile (fun c => c = '/')⟩

/-- Suffix test on strings, stated on the underlying character lists. -/
def hasSuffix (s suf : String) : Prop := suf.data <:+ s.data

instance (s suf : String) : Decidable (hasSuffix s suf) := by
  unfold hasSuffix; infer_instance

theorem hasSuffix_append (a b : String) : hasSuffix (a ++ b) b := by
  show b.data <:+ (a ++ b).data
  have : (a ++ b).data = a.data ++ b.data := rfl
  rw [this]
  exact List.suffix_append a.data b.data

/-- A string ending in ".png" does not end in ".webp". -/
theorem hasSuffix_png_not_webp (s : String) (h : hasSuffix s ".png") :
    ¬ hasSuffix s ".webp" := by
  intro h'
  rcases List.suffix_or_suffix_of_suffix h h' with hc | hc
  · exact absurd hc (by decide)
  · exact absurd hc (by decide)

/-! ## Rounding

Python `round(x, 2)` rounds to two decimal places, ties to even (banker's
rounding).  `roundHalfEven` is round-to-nearest-integer, ties to even. -/

/-- Round to the nearest integer, ties to the even neighbour
(the rounding Python's built-in `round` uses). -/
def roundHalfEven (x : ℚ) : ℤ :=
  if x - ⌊x⌋ < 1/2 then ⌊x⌋
  else if 1/2 < x - ⌊x⌋ then ⌊x⌋ + 1
  else if ⌊x⌋ % 2 = 0 then ⌊x⌋ else ⌊x⌋ + 1

/-- Python `round(x, 2)`. -/
def round2 (x : ℚ) : ℚ := (roundHalfEven (x * 100) : ℚ) / 100

theorem le_roundHalfEven {a : ℤ} {x : ℚ} (h : (a : ℚ) ≤ x) :
    a ≤ roundHalfEven x := by
  have hf : a ≤ ⌊x⌋ := Int.le_floor.mpr h
  unfold roundHalfEven
  split_ifs <;> omega

theorem roundHalfEven_le {b : ℤ} {x : ℚ} (h : x ≤ (b : ℚ)) :
    roundHalfEven x ≤ b := by
  have hfb : ⌊x⌋ ≤ b := by
    have := Int.floor_le_floor h
    simpa using this
  have hfx : (⌊x⌋ : ℚ) ≤ x := Int.floor_le x
  unfold roundHalfEven
  split_ifs with h1 h2 h3
  · exact hfb
  · -- here 1/2 < x - ⌊x⌋, so ⌊x⌋ < b and hence ⌊x⌋ + 1 ≤ b
    rcases lt_or_eq_of_le hfb with hlt | heq
    · omega
    · exfalso
      rw [heq] at h2
      have : x - b < 1 := by
        have := Int.sub_one_lt_floor x
        push_cast at this ⊢
        linarith [Int.floor_le x, Int.lt_floor_add_one x]
      linarith [h, h2, Int.floor_le x]
  · exact hfb
  · -- exact tie: x = ⌊x⌋ + 1/2, so x is not an integer and ⌊x⌋ < b
    have htie : x - ⌊x⌋ = 1/2 := le_antisymm (not_lt.mp h2) (not_lt.mp h1)
    rcases lt_or_eq_of_le hfb with hlt | heq
    · omega
    · exfalso
      rw [heq] at htie
      have : x = (b : ℚ) + 1/2 := by linarith
      rw [this] at h
      linarith

theorem roundHalfEven_intCast (n : ℤ) : roundHalfEven (n : ℚ) = n := by
  unfold roundHalfEven
  have h1 : ⌊(n : ℚ)⌋ = n := Int.floor_intCast n
  rw [h1]
  have : (n : ℚ) - n = 0 := by ring
  rw [this]
  norm_num

theorem round2_intCast (n : ℤ) : round2 ((n : ℚ)) = n := by
  unfold round2
  have h : (n : ℚ) * 100 = ((n * 100 : ℤ) : ℚ) := by push_cast; ring
  rw [h, roundHalfEven_intCast]
  push_cast
  field_simp

/-- Rounding to two decimals never leaves an integer-bounded interval. -/
theorem round2_bounds {a b : ℤ} {y : ℚ} (ha : (a : ℚ) ≤ y) (hb : y ≤ (b : ℚ)) :
    (a : ℚ) ≤ round2 y ∧ round2 y ≤ (b : ℚ) := by
  have ha' : ((a * 100 : ℤ) : ℚ) ≤ y * 100 := by push_cast; linarith
  have hb' : y * 100 ≤ ((b * 100 : ℤ) : ℚ) := by push_cast; linarith
  have h1 : a * 100 ≤ roundHalfEven (y * 100) := le_roundHalfEven ha'
  have h2 : roundHalfEven (y * 100) ≤ b * 100 := roundHalfEven_le hb'
  unfold round2
  constructor
  · rw [le_div_iff₀ (by norm_num : (0:ℚ) < 100)]
    have : ((a * 100 : ℤ) : ℚ) ≤ (roundHalfEven (y * 100) : ℚ) := by
      exact_mod_cast h1
    push_cast at this ⊢
    linarith
  · rw [div_le_iff₀ (by norm_num : (0:ℚ) < 100)]
    have : ((roundHalfEven (y * 100) : ℤ) : ℚ) ≤ ((b * 100 : ℤ) : ℚ) := by
      exact_mod_cast h2
    push_cast at this ⊢
    linarith

/-! ## Configuration (app.py lines 38 to 49) -/

/-- Allowed upload extensions, app.py line 40. -/
def ALLOWED_EXT : List String := ["png", "jpg", "jpeg", "gif", "webp"]

/-- Upload directory (modelled by its path relative to the project root,
app.py line 35). -/
def UPLOAD_DIR : String := "static/uploads"

/-- Extension of a filename: the segment after the last dot, lower-cased;
empty when the name has no dot.  This is the expression
`filename.rsplit(".", 1)[-1].lower() if "." in filename else ""`
used at app.py lines 167 and 236. -/
def extOf (filename : String) : String :=
  if filename.data.contains '.' then pyLower (afterLast '.' filename) else ""

/-- app.py lines 166 to 168. -/
def allowed_file (filename : String) : Bool :=
  ALLOWED_EXT.contains (extOf filename)

/-! ## Data model (app.py lines 64 to 75)

The `confidence` and `inference_time` floats are modelled as `ℚ`; the
`timestamp` column is modelled as an abstract instant `Nat`. -/

structure PredRow where
  id : Nat
  scan_id : String
  patient_name : String
  label : String
  confidence : ℚ
  inference_time : ℚ
  image_path : String
  timestamp : Nat
  true_label : Option String
deriving DecidableEq

/-- The predictions table: its rows plus the auto-increment counter. -/
structure DB where
  rows : List PredRow
  nextId : Nat
deriving DecidableEq

def emptyDB : DB := ⟨[], 1⟩

/-- Arguments of one `insert_prediction` call, together with the wall-clock
instant at which it runs. -/
structure UpsertCall where
  now : Nat
  scan_id : String
  patient_name : String
  label : String
  confidence : ℚ
  inference_time : ℚ
  image_path : String
deriving DecidableEq

/-! ## Storage layer (app.py lines 81 to 149) -/

/-- SQLAlchemy `Query.one_or_none`: the unique matching row, `none` when
there is no match, an error when several rows match (app.py line 84). -/
def one_or_none (rows : List PredRow) (sid : String) :
    Except String (Option PredRow) :=
  match rows.filter (fun r => r.scan_id == sid) with
  | [] => .ok none
  | [r] => .ok (some r)
  | _ :: _ :: _ => .error "MultipleResultsFound"

/-- Field update applied to the existing row, app.py lines 86 to 91
(every payload field is overwritten and the timestamp is stamped with
`datetime.utcnow()`). -/
def updateRow (c : UpsertCall) (r : PredRow) : PredRow :=
  { r with
    patient_name := c.patient_name
    label := c.label
    confidence := c.confidence
    inference_time := c.inference_time
    image_path := c.image_path
    timestamp := c.now }

/-- Fresh row built at app.py lines 93 to 100; the timestamp comes from the
column's `server_default CURRENT_TIMESTAMP`. -/
def newRow (id : Nat) (c : UpsertCall) : PredRow :=
  ⟨id, c.scan_id, c.patient_name, c.label, c.confidence, c.inference_time,
   c.image_path, c.now, none⟩

/-- app.py lines 81 to 108: update the row carrying `scan_id` in place when
one exists, insert a fresh row otherwise.  The session-level update of the
single object returned by `one_or_none` is modelled as a map that rewrites
the (unique) matching row. -/
def insert_prediction (db : DB) (c : UpsertCall) : Except String DB :=
  match one_or_none db.rows c.scan_id with
  | .error e => .error e
  | .ok (some _) =>
      .ok { db with
            rows := db.rows.map
              (fun r => if r.scan_id == c.scan_id then updateRow c r else r) }
  | .ok none =>
      .ok { rows := db.rows ++ [newRow db.nextId c], nextId := db.nextId + 1 }

/-- A sequence of `insert_prediction` calls, aborting on the first error. -/
def runCalls (db : DB) : List UpsertCall → Except String DB
  | [] => .ok db
  | c :: cs =>
      match insert_prediction db c with
      | .ok db' => runCalls db' cs
      | .error e => .error e

/-- Number of rows carrying a given scan id. -/
def scanCount (db : DB) (sid : String) : Nat :=
  (db.rows.filter (fun r => r.scan_id == sid)).length

/-- SQL `AVG` over a column: `NULL` on an empty set of rows. -/
def sqlAvg (xs : List ℚ) : Option ℚ :=
  if xs.isEmpty then none else some (xs.sum / xs.length)

/-- Aggregate stats record returned by `query_stats`. -/
structure Stats where
  total_scans : Nat
  fractures : Nat
  avg_latency : Option ℚ
  model_accuracy : Option ℚ
  labelled_count : Nat
deriving DecidableEq

/-- app.py lines 110 to 130.  The count, fracture-count, average-latency
and labelled-count queries work; the accuracy query at line 119 is built
with `func.case([(label == true_label, 1.0)], else_=0.0)` — but
`sqlalchemy.func` is the generic-function namespace, not the `case`
construct, so that call never yields a valid CASE expression and the
query raises as soon as it runs.  The raise escapes `query_stats` (the
function body has only a `finally`), which is modelled as the error
branch: the accuracy query runs — and therefore the function raises —
exactly when `labelled > 0`, and every successful return carries
`model_accuracy = None`. -/
def query_stats (rows : List PredRow) : Except String Stats :=
  let labelledRows := rows.filter (fun r => r.true_label.isSome)
  if 0 < labelledRows.length then
    .error "func.case is not the case construct"
  else
    .ok { total_scans := rows.length
          fractures := (rows.filter (fun r => r.label == "Fractured")).length
          avg_latency := sqlAvg (rows.map (fun r => r.inference_time))
          model_accuracy := none
          labelled_count := labelledRows.length }

/-- Row-id descending order relation used by `ORDER BY id DESC`. -/
def idDescRel (a b : PredRow) : Prop := b.id ≤ a.id

instance (a b : PredRow) : Decidable (idDescRel a b) := by
  unfold idDescRel; infer_instance

/-- Insertion step of the id-descending sort. -/
def insertDesc (r : PredRow) : List PredRow → List PredRow
  | [] => [r]
  | x :: xs => if x.id ≤ r.id then r :: x :: xs else x :: insertDesc r xs

/-- The result set of `ORDER BY Prediction.id DESC` (app.py line 135),
modelled as an insertion sort. -/
def sortByIdDesc : List PredRow → List PredRow
  | [] => []
  | x :: xs => insertDesc x (sortByIdDesc xs)

/-- Dictionary built per row at app.py lines 138 to 146 (it has no id
field; the timestamp is serialised). -/
structure RecentEntry where
  scan_id : String
  patient_name : String
  label : String
  confidence : ℚ
  inference_time : ℚ
  image_path : String
  timestamp : Nat
deriving DecidableEq

def rowToRecent (r : PredRow) : RecentEntry :=
  ⟨r.scan_id, r.patient_name, r.label, r.confidence, r.inference_time,
   r.image_path, r.timestamp⟩

/-- The row list produced by the query at app.py line 135
(`order_by(id.desc()).limit(limit)`).  A negative SQL `LIMIT` is rejected
by MySQL, which surfaces as a `SQLAlchemyError`. -/
def query_recent_rows (rows : List PredRow) (limit : Int) :
    Except String (List PredRow) :=
  if limit < 0 then .error "negative LIMIT"
  else .ok ((sortByIdDesc rows).take limit.toNat)

/-- app.py lines 132 to 149. -/
def query_recent (rows : List PredRow) (limit : Int) :
    Except String (List RecentEntry) :=
  (query_recent_rows rows limit).map (List.map rowToRecent)

/-! ## The /api/recent handler (app.py lines 329 to 337) -/

/-- Value of a decimal digit character. -/
def digitVal (c : Char) : Nat := c.toNat - 48

/-- Parse a nonempty all-digit character list. -/
def parseDigits (l : List Char) : Option Nat :=
  if l ≠ [] ∧ l.all (fun c => c.isDigit) then
    some (l.foldl (fun a c => a * 10 + digitVal c) 0)
  else none

/-- Python `int(s)` on a string: surrounding whitespace ignored, optional
sign, decimal digits; `none` models the `ValueError` raised otherwise.
(Digit-group underscores, irrelevant here, are not modelled.) -/
def pyInt (s : String) : Option Int :=
  match (pyStrip s).data with
  | '-' :: rest => (parseDigits rest).map (fun n => -(n : Int))
  | '+' :: rest => (parseDigits rest).map (fun n => (n : Int))
  | l => (parseDigits l).map (fun n => (n : Int))

/-- The limit value that `api_recent` hands to `query_recent`:
`int(request.args.get("n", 10))` (app.py line 332), with `none` when the
`int(...)` conversion raises.  No further sanitization happens. -/
def api_recent_used_limit (nParam : Option String) : Option Int :=
  match nParam with
  | none => some 10
  | some s => pyInt s

/-- Response of GET /api/recent: status code plus payload rows when the
request succeeds.  Both the `ValueError` of `int(...)` and a query failure
are caught by the blanket `except` and mapped to a 500 (app.py lines
335 to 337). -/
def api_recent (nParam : Option String) (db : DB) :
    Nat × Option (List RecentEntry) :=
  match api_recent_used_limit nParam with
  | none => (500, none)
  | some k =>
      match query_recent db.rows k with
      | .error _ => (500, none)
      | .ok out => (200, some out)

/-! ## The /predict pipeline (app.py lines 194 to 316) -/

/-- Label mapping policy, app.py line 278. -/
def labelOf (prob : ℚ) : String :=
  if 1/2 < prob then "Normal" else "Fractured"

/-- Reported confidence, app.py line 279. -/
def confidenceOf (prob : ℚ) : ℚ :=
  if labelOf prob = "Normal" then prob else 1 - prob

/-- Percentage display value, app.py line 280. -/
def confidencePctOf (prob : ℚ) : ℚ := round2 (confidenceOf prob * 100)

/-- One incoming POST /predict request.  `filePart` is `none` when the
multipart body has no "file" part, otherwise it carries the client-supplied
filename; `patientNameField` is the raw `patient_name` form field;
`wantsJson` is the content negotiation result of `request_wants_json()`
(app.py lines 170 to 173), decided once per request. -/
structure PredictRequest where
  filePart : Option String
  patientNameField : Option String
  wantsJson : Bool

/-- Everything the handler reads from its surroundings: the werkzeug
sanitizer, the two formatted timestamps, the wall-clock instant, whether a
trained model is loaded, the outcomes of the fallible external calls
(re-encode, the swallowed `os.remove` of the original WEBP, model call,
DB commit) and the demo-mode random sample. -/
structure Env where
  sec : String → String
  ts : String
  scanTs : String
  now : Nat
  modelLoaded : Bool
  modelResult : Except String ℚ
  modelTime : ℚ
  demoProb : ℚ
  demoTime : ℚ
  convertOk : Bool
  removeOk : Bool
  convErr : String
  dbOk : Bool

/-- Body of a /predict response.  `dashboardHtml err` is
`render_template("dashboard.html", error=err)`.  Modelled from the spec:
the template files are not under src; per the spec the rendered page
carries the error message handed to the template. -/
inductive Body where
  | jsonOk : String → String → ℚ → ℚ → String → String → ℚ → Body
  | jsonError : String → Option String → Body
  | dashboardHtml : Option String → Body
  | resultHtml : String → ℚ → String → String → Body
deriving DecidableEq

structure HttpResponse where
  status : Nat
  body : Body
deriving DecidableEq

/-- The classification the handler computed (ghost record mirroring the
local variables at app.py lines 277 to 281); `none` when the pipeline
aborts before computing one. -/
structure ComputedResult where
  scan_id : String
  label : String
  confidence : ℚ
  confidence_pct : ℚ
  image_path : String
  patient_name : String
  inference_time : ℚ
deriving DecidableEq

/-- Result of one /predict call: the HTTP response, the table afterwards,
the files the call left in the upload directory, and the computed
classification if any. -/
structure PredictOutcome where
  response : HttpResponse
  db : DB
  files : List String
  computed : Option ComputedResult
deriving DecidableEq

/-- Error exit of the validation steps: in JSON mode a response with the
given status, in HTML mode the dashboard re-rendered with the message —
`render_template` returns it with the implicit status 200. -/
def errorResponse (wantsJson : Bool) (msg : String) (details : Option String)
    (status : Nat) (db : DB) (files : List String) : PredictOutcome :=
  if wantsJson then ⟨⟨status, .jsonError msg details⟩, db, files, none⟩
  else ⟨⟨200, .dashboardHtml (some msg)⟩, db, files, none⟩

/-- Steps from app.py line 277 on: label mapping, scan id, best-effort
persistence (a failed commit, or an `insert_prediction` error, is logged
and swallowed at lines 284 to 287), then the success response. -/
def predictFinish (env : Env) (req : PredictRequest) (db : DB)
    (saved_name patient_name : String) (prob itime : ℚ)
    (fs : List String) : PredictOutcome :=
  let label := labelOf prob
  let confidence := confidenceOf prob
  let confidence_pct := confidencePctOf prob
  let scan_id := "A" ++ env.scanTs
  let image_path := "/static/uploads/" ++ saved_name
  let db' :=
    if env.dbOk then
      match insert_prediction db
          ⟨env.now, scan_id, patient_name, label, confidence, itime,
           image_path⟩ with
      | .ok d => d
      | .error _ => db
    else db
  let comp : ComputedResult :=
    ⟨scan_id, label, confidence, confidence_pct, image_path, patient_name,
     itime⟩
  if req.wantsJson then
    ⟨⟨200, .jsonOk scan_id label confidence confidence_pct image_path
        patient_name itime⟩, db', fs, some comp⟩
  else
    ⟨⟨200, .resultHtml label confidence_pct image_path patient_name⟩,
     db', fs, some comp⟩

/-- app.py lines 181 to 187: with no model loaded, return the
`random.uniform(0.75, 0.95)` sample (here `uniformSample`); otherwise the
scalar the model produced. -/
def predict_from_model (model : Option ℚ) (uniformSample : ℚ) : ℚ :=
  match model with
  | none => uniformSample
  | some v => v

/-- Inference step, app.py lines 257 to 275: with a loaded model the
preprocess-and-predict call may raise (500); otherwise
`predict_from_model(None)` yields the demo-mode sample. -/
def predictInfer (env : Env) (req : PredictRequest) (db : DB)
    (saved_name patient_name : String) (fs : List String) : PredictOutcome :=
  if env.modelLoaded then
    match env.modelResult with
    | .error e =>
        errorResponse req.wantsJson "Prediction error" (some e) 500 db fs
    | .ok prob =>
        predictFinish env req db saved_name patient_name prob env.modelTime fs
  else
    predictFinish env req db saved_name patient_name
      (predict_from_model none env.demoProb) env.demoTime fs

/-- POST /predict, app.py lines 194 to 316.  Validation in source order:
missing file part, empty filename, missing patient name, disallowed
extension; then the file is saved under a timestamped name, a WEBP upload
is re-encoded to PNG and the original WEBP is deleted — where the
`os.remove` sits in a `try/except Exception: pass` (lines 244 to 247), so
a failed deletion leaves the WEBP on disk next to the PNG — and inference
runs. -/
def predict (env : Env) (req : PredictRequest) (db : DB) : PredictOutcome :=
  match req.filePart with
  | none => errorResponse req.wantsJson "No file uploaded" none 400 db []
  | some origName =>
    if origName = "" then
      errorResponse req.wantsJson "No file selected" none 400 db []
    else if pyStrip (req.patientNameField.getD "") = "" then
      errorResponse req.wantsJson "Patient name is required." none 400 db []
    else if ¬ allowed_file origName then
      errorResponse req.wantsJson "File type not allowed" none 400 db []
    else
      let filename := env.sec origName
      let saved_name := env.ts ++ "_" ++ filename
      let ext := extOf filename
      if ext = "webp" then
        if env.convertOk then
          predictInfer env req db (beforeLast '.' saved_name ++ ".png")
            (pyStrip (req.patientNameField.getD ""))
            (if env.removeOk then [beforeLast '.' saved_name ++ ".png"]
             else [saved_name, beforeLast '.' saved_name ++ ".png"])
        else
          if req.wantsJson then
            ⟨⟨400, .jsonError "WEBP conversion failed" (some env.convErr)⟩,
             db, [saved_name], none⟩
          else
            ⟨⟨200, .dashboardHtml
                (some ("WEBP conversion failed: " ++ env.convErr))⟩,
             db, [saved_name], none⟩
      else
        predictInfer env req db saved_name
          (pyStrip (req.patientNameField.getD "")) [saved_name]

/-! ## The /download_report handler (app.py lines 341 to 382) -/

/-- Request parameters read at app.py lines 343 to 348 (form or query
string); `none` marks an absent parameter. -/
structure ReportRequest where
  prediction : Option String
  accuracy : Option String
  image_path : Option String
  patient_name : Option String
  current_date : Option String

/-- The generated single page: the text lines drawn on the canvas and the
resolved image embedded into the fixed bounding box, if any. -/
structure PdfReport where
  pages : Nat
  title : String
  lines : List String
  image : Option String
deriving DecidableEq

structure ReportResponse where
  status : Nat
  attachmentName : String
  mimetype : String
  report : PdfReport
deriving DecidableEq

/-- Image resolution, app.py lines 361 to 368: try the slash-stripped path
as given, then its basename under the upload directory; `none` when the
parameter is absent or empty (falsy) or neither candidate exists. -/
def resolve_image (disk : List String) (image_path : Option String) :
    Option String :=
  match image_path with
  | none => none
  | some p =>
    if p = "" then none
    else
      let candidate := lstripSlash p
      let candidate2 := UPLOAD_DIR ++ "/" ++ pyBasename candidate
      if disk.contains candidate then some candidate
      else if disk.contains candidate2 then some candidate2
      else none

/-- GET/POST /download_report.  `disk` is the set of paths existing on
disk; `embedOk` tells whether `canvas.drawImage` succeeds on the resolved
image (a failure is caught and only logged, app.py lines 370 to 374). -/
def download_report (disk : List String) (embedOk : Bool)
    (nowDate : String) (req : ReportRequest) : ReportResponse :=
  let prediction := req.prediction.getD "Unknown"
  let accuracy := req.accuracy.getD "N/A"
  let patient_name := req.patient_name.getD "Uploaded Patient"
  let current_date := req.current_date.getD nowDate
  let image :=
    match resolve_image disk req.image_path with
    | none => none
    | some p => if embedOk then some p else none
  { status := 200
    attachmentName := "xray_report.pdf"
    mimetype := "application/pdf"
    report :=
      { pages := 1
        title := "X-ray Analysis Report"
        lines :=
          ["Date: " ++ current_date,
           "Patient: " ++ patient_name,
           "Diagnosis: " ++ prediction,
           "Confidence: " ++ accuracy ++ "%",
           "Doctor's Note:",
           "Always consult a medical professional if you have any concerns."]
        image := image } }

/-! ## Projection lemmas for the pipeline stages -/

theorem errorResponse_computed (w : Bool) (m : String) (d : Option String)
    (s : Nat) (db : DB) (fs : List String) :
    (errorResponse w m d s db fs).computed = none := by
  unfold errorResponse; split <;> rfl

theorem errorResponse_db (w : Bool) (m : String) (d : Option String)
    (s : Nat) (db : DB) (fs : List String) :
    (errorResponse w m d s db fs).db = db := by
  unfold errorResponse; split <;> rfl

theorem errorResponse_files (w : Bool) (m : String) (d : Option String)
    (s : Nat) (db : DB) (fs : List String) :
    (errorResponse w m d s db fs).files = fs := by
  unfold errorResponse; split <;> rfl

theorem errorResponse_response (w : Bool) (m : String) (d : Option String)
    (s : Nat) (db : DB) (fs : List String) :
    (errorResponse w m d s db fs).response =
      if w then ⟨s, .jsonError m d⟩ else ⟨200, .dashboardHtml (some m)⟩ := by
  unfold errorResponse; split <;> simp_all

theorem predictFinish_computed (env : Env) (req : PredictRequest) (db : DB)
    (sn pn : String) (prob it : ℚ) (fs : List String) :
    (predictFinish env req db sn pn prob it fs).computed =
      some ⟨"A" ++ env.scanTs, labelOf prob, confidenceOf prob,
        confidencePctOf prob, "/static/uploads/" ++ sn, pn, it⟩ := by
  unfold predictFinish; dsimp only; split <;> rfl

theorem predictFinish_files (env : Env) (req : PredictRequest) (db : DB)
    (sn pn : String) (prob it : ℚ) (fs : List String) :
    (predictFinish env req db sn pn prob it fs).files = fs := by
  unfold predictFinish; dsimp only; split <;> rfl

theorem predictFinish_status (env : Env) (req : PredictRequest) (db : DB)
    (sn pn : String) (prob it : ℚ) (fs : List String) :
    (predictFinish env req db sn pn prob it fs).response.status = 200 := by
  unfold predictFinish; dsimp only; split <;> rfl

theorem predictFinish_response (env : Env) (req : PredictRequest) (db : DB)
    (sn pn : String) (prob it : ℚ) (fs : List String) :
    (predictFinish env req db sn pn prob it fs).response =
      if req.wantsJson then
        ⟨200, .jsonOk ("A" ++ env.scanTs) (labelOf prob) (confidenceOf prob)
          (confidencePctOf prob) ("/static/uploads/" ++ sn) pn it⟩
      else
        ⟨200, .resultHtml (labelOf prob) (confidencePctOf prob)
          ("/static/uploads/" ++ sn) pn⟩ := by
  unfold predictFinish; dsimp only; split <;> simp_all

theorem predictFinish_db (env : Env) (req : PredictRequest) (db : DB)
    (sn pn : String) (prob it : ℚ) (fs : List String) :
    (predictFinish env req db sn pn prob it fs).db =
      (if env.dbOk then
        match insert_prediction db
            ⟨env.now, "A" ++ env.scanTs, pn, labelOf prob, confidenceOf prob,
             it, "/static/uploads/" ++ sn⟩ with
        | .ok d => d
        | .error _ => db
      else db) := by
  unfold predictFinish; dsimp only; split <;> rfl

theorem predictInfer_demo_computed (env : Env) (req : PredictRequest)
    (db : DB) (sn pn : String) (fs : List String)
    (hm : env.modelLoaded = false) :
    (predictInfer env req db sn pn fs).computed =
      some ⟨"A" ++ env.scanTs, labelOf env.demoProb, confidenceOf env.demoProb,
        confidencePctOf env.demoProb, "/static/uploads/" ++ sn, pn,
        env.demoTime⟩ := by
  unfold predictInfer
  rw [hm]
  simp only [Bool.false_eq_true, if_false]
  rw [predictFinish_computed]
  rfl

theorem labelOf_pos {p : ℚ} (h : 1/2 < p) : labelOf p = "Normal" := by
  unfold labelOf; rw [if_pos h]

theorem labelOf_neg {p : ℚ} (h : ¬ 1/2 < p) : labelOf p = "Fractured" := by
  unfold labelOf; rw [if_neg h]

theorem confidenceOf_pos {p : ℚ} (h : 1/2 < p) : confidenceOf p = p := by
  unfold confidenceOf
  rw [labelOf_pos h, if_pos rfl]

theorem confidenceOf_neg {p : ℚ} (h : ¬ 1/2 < p) : confidenceOf p = 1 - p := by
  unfold confidenceOf
  rw [labelOf_neg h, if_neg (by decide)]

/-! ## Claim C2 -/

/-- Claim C2: for every probability p in [0, 1] produced by inference, the
label is "Normal" if p > 1/2 and "Fractured" otherwise; the reported
confidence equals p when the label is Normal and 1 - p otherwise; and the
percentage `round(confidence * 100, 2)` always lies in [0, 100]
(app.py lines 277 to 280). -/
theorem C2_label_confidence_policy (p : ℚ) (h0 : 0 ≤ p) (h1 : p ≤ 1) :
    (labelOf p = "Normal" ↔ 1/2 < p) ∧
    (labelOf p = "Normal" ∨ labelOf p = "Fractured") ∧
    (1/2 < p → confidenceOf p = p) ∧
    (¬ 1/2 < p → labelOf p = "Fractured" ∧ confidenceOf p = 1 - p) ∧
    confidencePctOf p = round2 (confidenceOf p * 100) ∧
    0 ≤ confidencePctOf p ∧ confidencePctOf p ≤ 100 := by
  have hconf0 : 0 ≤ confidenceOf p := by
    by_cases hp : 1/2 < p
    · rw [confidenceOf_pos hp]; linarith
    · rw [confidenceOf_neg hp]; linarith
  have hconf1 : confidenceOf p ≤ 1 := by
    by_cases hp : 1/2 < p
    · rw [confidenceOf_pos hp]; linarith
    · rw [confidenceOf_neg hp]; linarith
  have hmul0 : ((0 : ℤ) : ℚ) ≤ confidenceOf p * 100 := by push_cast; nlinarith
  have hmul1 : confidenceOf p * 100 ≤ ((100 : ℤ) : ℚ) := by push_cast; nlinarith
  have hb := round2_bounds hmul0 hmul1
  refine ⟨?_, ?_, ?_, ?_, rfl, ?_, ?_⟩
  · constructor
    · intro hn
      by_contra hp
      rw [labelOf_neg hp] at hn
      exact absurd hn (by decide)
    · intro hp
      exact labelOf_pos hp
  · by_cases hp : 1/2 < p
    · exact Or.inl (labelOf_pos hp)
    · exact Or.inr (labelOf_neg hp)
  · intro hp
    exact confidenceOf_pos hp
  · intro hp
    exact ⟨labelOf_neg hp, confidenceOf_neg hp⟩
  · unfold confidencePctOf
    have := hb.1
    push_cast at this
    linarith
  · unfold confidencePctOf
    have := hb.2
    push_cast at this
    linarith

/-- Witness for C2 at the concrete probability 3/10. -/
theorem C2_label_confidence_policy_witness :
    (0 : ℚ) ≤ 3/10 ∧ (3 : ℚ)/10 ≤ 1 ∧
    ((labelOf (3/10) = "Normal" ↔ 1/2 < (3 : ℚ)/10) ∧
     (labelOf (3/10) = "Normal" ∨ labelOf (3/10) = "Fractured") ∧
     (1/2 < (3 : ℚ)/10 → confidenceOf (3/10) = 3/10) ∧
     (¬ 1/2 < (3 : ℚ)/10 →
        labelOf (3/10) = "Fractured" ∧ confidenceOf (3/10) = 1 - 3/10) ∧
     confidencePctOf (3/10) = round2 (confidenceOf (3/10) * 100) ∧
     0 ≤ confidencePctOf (3/10) ∧ confidencePctOf (3/10) ≤ 100) :=
  ⟨by norm_num, by norm_num,
   C2_label_confidence_policy (3/10) (by norm_num) (by norm_num)⟩

/-! ## Claim C10 -/

/-- In demo mode (no model loaded), every /predict call either aborts
before inference or computes its classification from the demo-mode
sample. -/
theorem predict_computed_demo (env : Env) (req : PredictRequest) (db : DB)
    (hm : env.modelLoaded = false) :
    (predict env req db).computed = none ∨
    ∃ sn pn, (predict env req db).computed =
      some ⟨"A" ++ env.scanTs, labelOf env.demoProb, confidenceOf env.demoProb,
        confidencePctOf env.demoProb, "/static/uploads/" ++ sn, pn,
        env.demoTime⟩ := by
  obtain ⟨fp, pnf, wj⟩ := req
  unfold predict
  dsimp only
  cases fp with
  | none => exact Or.inl (errorResponse_computed ..)
  | some origName =>
    dsimp only
    by_cases h1 : origName = ""
    · rw [if_pos h1]
      exact Or.inl (errorResponse_computed ..)
    rw [if_neg h1]
    by_cases h2 : pyStrip (Option.getD pnf "") = ""
    · rw [if_pos h2]
      exact Or.inl (errorResponse_computed ..)
    rw [if_neg h2]
    by_cases h3 : allowed_file origName = true
    · rw [if_neg (not_not_intro h3)]
      by_cases h4 : extOf (env.sec origName) = "webp"
      · rw [if_pos h4]
        by_cases h5 : env.convertOk = true
        · rw [if_pos h5]
          exact Or.inr ⟨beforeLast '.' (env.ts ++ "_" ++ env.sec origName) ++ ".png",
            pyStrip (pnf.getD ""),
            predictInfer_demo_computed env ⟨some origName, pnf, wj⟩ db _ _ _ hm⟩
        · rw [if_neg h5]
          cases wj with
          | true => exact Or.inl rfl
          | false => exact Or.inl rfl
      · rw [if_neg h4]
        exact Or.inr ⟨env.ts ++ "_" ++ env.sec origName, pyStrip (pnf.getD ""),
          predictInfer_demo_computed env ⟨some origName, pnf, wj⟩ db _ _ _ hm⟩
    · rw [if_pos (by simpa using h3)]
      exact Or.inl (errorResponse_computed ..)

/-- Claim C10: whenever no trained model is available, the probability used
is the `random.uniform(0.75, 0.95)` sample (hypotheses `hlo`, `hhi` are the
guarantee of `random.uniform`, app.py line 184), so every classification
the /predict pipeline computes in demo mode is labelled "Normal" — never
"Fractured" — with a confidence percentage in [75, 95]. -/
theorem C10_demo_mode_always_normal (env : Env) (req : PredictRequest)
    (db : DB) (hm : env.modelLoaded = false)
    (hlo : 3/4 ≤ env.demoProb) (hhi : env.demoProb ≤ 19/20) :
    ∀ c, (predict env req db).computed = some c →
      c.label = "Normal" ∧ c.label ≠ "Fractured" ∧
      75 ≤ c.confidence_pct ∧ c.confidence_pct ≤ 95 := by
  intro c hc
  have hp : 1/2 < env.demoProb := by linarith
  rcases predict_computed_demo env req db hm with hnone | ⟨sn, pn, hsome⟩
  · rw [hnone] at hc
    cases hc
  · rw [hsome] at hc
    injection hc with hcr
    subst hcr
    refine ⟨labelOf_pos hp, ?_, ?_, ?_⟩
    · show labelOf env.demoProb ≠ "Fractured"
      rw [labelOf_pos hp]
      decide
    · show (75 : ℚ) ≤ confidencePctOf env.demoProb
      unfold confidencePctOf
      rw [confidenceOf_pos hp]
      have hl : ((75 : ℤ) : ℚ) ≤ env.demoProb * 100 := by push_cast; linarith
      have hh : env.demoProb * 100 ≤ ((95 : ℤ) : ℚ) := by push_cast; linarith
      have := (round2_bounds hl hh).1
      push_cast at this
      linarith
    · show confidencePctOf env.demoProb ≤ (95 : ℚ)
      unfold confidencePctOf
      rw [confidenceOf_pos hp]
      have hl : ((75 : ℤ) : ℚ) ≤ env.demoProb * 100 := by push_cast; linarith
      have hh : env.demoProb * 100 ≤ ((95 : ℤ) : ℚ) := by push_cast; linarith
      have := (round2_bounds hl hh).2
      push_cast at this
      linarith

/-- Concrete demo-mode environment: no model loaded, sample 4/5, identity
filename sanitizer. -/
def env10 : Env :=
  ⟨fun s => s, "20250101", "250101", 0, false, .ok 0, 0, 4/5, 1/100, true,
   true, "", true⟩

/-- Concrete valid JSON-mode upload request. -/
def req10 : PredictRequest := ⟨some "a.png", some "Jane", true⟩

/-- Witness for C10: the demo-mode pipeline run on a concrete request. -/
theorem C10_demo_mode_always_normal_witness :
    (predict env10 req10 emptyDB).computed.map (fun c => c.label) =
      some "Normal" ∧
    (predict env10 req10 emptyDB).computed.map
        (fun c => decide (75 ≤ c.confidence_pct) &&
                  decide (c.confidence_pct ≤ 95)) = some true := by
  have h := C10_demo_mode_always_normal env10 req10 emptyDB rfl
    (by norm_num [env10]) (by norm_num [env10])
  have hsome : (predict env10 req10 emptyDB).computed.isSome = true := rfl
  cases hx : (predict env10 req10 emptyDB).computed with
  | none => rw [hx] at hsome; cases hsome
  | some c =>
    have hp := h c hx
    refine ⟨?_, ?_⟩
    · simp [hp.1]
    · simp [decide_eq_true hp.2.2.1, decide_eq_true hp.2.2.2]

/-! ## Claim C1 -/

/-- Claim C1 (amended): a POST /predict whose multipart body has no "file"
part writes no row, saves no file and computes no classification; the
JSON-negotiated response is a 400 carrying "No file uploaded", while the
HTML-negotiated response is the re-rendered dashboard carrying the same
message — returned with status 200, not 400 (app.py lines 198 to 202:
`render_template` is returned without an explicit status code). -/
theorem C1_no_file_part (env : Env) (req : PredictRequest) (db : DB)
    (hf : req.filePart = none) :
    (predict env req db).db = db ∧
    (predict env req db).files = [] ∧
    (predict env req db).computed = none ∧
    (req.wantsJson = true →
      (predict env req db).response =
        ⟨400, .jsonError "No file uploaded" none⟩) ∧
    (req.wantsJson = false →
      (predict env req db).response =
        ⟨200, .dashboardHtml (some "No file uploaded")⟩) := by
  obtain ⟨fp, pnf, wj⟩ := req
  dsimp only at hf
  subst hf
  unfold predict
  dsimp only
  refine ⟨errorResponse_db .., errorResponse_files .., errorResponse_computed ..,
    ?_, ?_⟩
  · intro hw
    rw [errorResponse_response, if_pos hw]
  · intro hw
    rw [errorResponse_response, if_neg (by simp [hw])]

/-- No-file request in HTML mode. -/
def reqC1html : PredictRequest := ⟨none, none, false⟩

/-- No-file request in JSON mode. -/
def reqC1json : PredictRequest := ⟨none, none, true⟩

/-- Counterexample to C1 as stated: in HTML mode the no-file rejection is
returned with status 200, not 400. -/
theorem C1_no_file_part_counterexample :
    (predict env10 reqC1html emptyDB).response.status = 200 ∧
    ¬ (predict env10 reqC1html emptyDB).response.status = 400 := by
  exact ⟨rfl, by decide⟩

/-- Witness for C1 at a concrete JSON-mode request. -/
theorem C1_no_file_part_witness :
    (predict env10 reqC1json emptyDB).db = emptyDB ∧
    (predict env10 reqC1json emptyDB).files = [] ∧
    (predict env10 reqC1json emptyDB).computed = none ∧
    (predict env10 reqC1json emptyDB).response =
      ⟨400, .jsonError "No file uploaded" none⟩ := by
  have h := C1_no_file_part env10 reqC1json emptyDB rfl
  exact ⟨h.1, h.2.1, h.2.2.1, h.2.2.2.1 rfl⟩

/-! ## Routing lemmas for the validated branches of /predict -/

theorem predict_route_not_allowed (env : Env) (req : PredictRequest)
    (db : DB) (f : String) (hf : req.filePart = some f) (hne : ¬ f = "")
    (hpn : ¬ pyStrip (req.patientNameField.getD "") = "")
    (h3 : ¬ allowed_file f = true) :
    predict env req db =
      errorResponse req.wantsJson "File type not allowed" none 400 db [] := by
  obtain ⟨fp, pnf, wj⟩ := req
  dsimp only at hf hpn ⊢
  subst hf
  unfold predict
  dsimp only
  rw [if_neg hne, if_neg hpn, if_pos h3]

theorem predict_route_webp_ok (env : Env) (req : PredictRequest) (db : DB)
    (f : String) (hf : req.filePart = some f) (hne : ¬ f = "")
    (hpn : ¬ pyStrip (req.patientNameField.getD "") = "")
    (h3 : allowed_file f = true) (h4 : extOf (env.sec f) = "webp")
    (h5 : env.convertOk = true) :
    predict env req db =
      predictInfer env req db
        (beforeLast '.' (env.ts ++ "_" ++ env.sec f) ++ ".png")
        (pyStrip (req.patientNameField.getD ""))
        (if env.removeOk then
           [beforeLast '.' (env.ts ++ "_" ++ env.sec f) ++ ".png"]
         else [env.ts ++ "_" ++ env.sec f,
           beforeLast '.' (env.ts ++ "_" ++ env.sec f) ++ ".png"]) := by
  obtain ⟨fp, pnf, wj⟩ := req
  dsimp only at hf hpn ⊢
  subst hf
  unfold predict
  dsimp only
  rw [if_neg hne, if_neg hpn, if_neg (not_not_intro h3), if_pos h4, if_pos h5]

theorem predict_route_webp_fail (env : Env) (req : PredictRequest) (db : DB)
    (f : String) (hf : req.filePart = some f) (hne : ¬ f = "")
    (hpn : ¬ pyStrip (req.patientNameField.getD "") = "")
    (h3 : allowed_file f = true) (h4 : extOf (env.sec f) = "webp")
    (h5 : ¬ env.convertOk = true) :
    predict env req db =
      ⟨if req.wantsJson then
          ⟨400, .jsonError "WEBP conversion failed" (some env.convErr)⟩
        else
          ⟨200, .dashboardHtml
            (some ("WEBP conversion failed: " ++ env.convErr))⟩,
       db, [env.ts ++ "_" ++ env.sec f], none⟩ := by
  obtain ⟨fp, pnf, wj⟩ := req
  dsimp only at hf hpn ⊢
  subst hf
  unfold predict
  dsimp only
  rw [if_neg hne, if_neg hpn, if_neg (not_not_intro h3), if_pos h4, if_neg h5]
  cases wj with
  | true => rfl
  | false => rfl

theorem predict_route_nonwebp (env : Env) (req : PredictRequest) (db : DB)
    (f : String) (hf : req.filePart = some f) (hne : ¬ f = "")
    (hpn : ¬ pyStrip (req.patientNameField.getD "") = "")
    (h3 : allowed_file f = true) (h4 : ¬ extOf (env.sec f) = "webp") :
    predict env req db =
      predictInfer env req db (env.ts ++ "_" ++ env.sec f)
        (pyStrip (req.patientNameField.getD "")) [env.ts ++ "_" ++ env.sec f]
        := by
  obtain ⟨fp, pnf, wj⟩ := req
  dsimp only at hf hpn ⊢
  subst hf
  unfold predict
  dsimp only
  rw [if_neg hne, if_neg hpn, if_neg (not_not_intro h3), if_neg h4]

theorem predictInfer_files (env : Env) (req : PredictRequest) (db : DB)
    (sn pn : String) (fs : List String) :
    (predictInfer env req db sn pn fs).files = fs := by
  unfold predictInfer
  by_cases hm : env.modelLoaded = true
  · rw [if_pos hm]
    cases hr : env.modelResult with
    | error e => exact errorResponse_files ..
    | ok prob => exact predictFinish_files ..
  · rw [if_neg hm]
    exact predictFinish_files ..

theorem predictInfer_computed_cases (env : Env) (req : PredictRequest)
    (db : DB) (sn pn : String) (fs : List String) :
    (predictInfer env req db sn pn fs).computed = none ∨
    ∃ prob it, (predictInfer env req db sn pn fs).computed =
      some ⟨"A" ++ env.scanTs, labelOf prob, confidenceOf prob,
        confidencePctOf prob, "/static/uploads/" ++ sn, pn, it⟩ := by
  unfold predictInfer
  by_cases hm : env.modelLoaded = true
  · rw [if_pos hm]
    cases hr : env.modelResult with
    | error e => exact Or.inl (errorResponse_computed ..)
    | ok prob => exact Or.inr ⟨prob, env.modelTime, predictFinish_computed ..⟩
  · rw [if_neg hm]
    exact Or.inr ⟨env.demoProb, env.demoTime, predictFinish_computed ..⟩

/-! ## Claim C6 -/

/-- Claim C6 (amended): with a file part, a nonempty filename and a
nonempty patient name, the upload is accepted — a file gets saved —
exactly when the extension (segment after the last dot, compared
case-insensitively) is one of png, jpg, jpeg, gif, webp; any other
extension is rejected before touching disk or the table, with a 400 in
JSON mode but with the 200 rendered dashboard in HTML mode (app.py lines
166 to 168 and 223 to 227). -/
theorem C6_extension_gate (env : Env) (req : PredictRequest) (db : DB)
    (f : String) (hf : req.filePart = some f) (hne : ¬ f = "")
    (hpn : ¬ pyStrip (req.patientNameField.getD "") = "") :
    ((extOf f ∈ ALLOWED_EXT) ↔ ¬ (predict env req db).files = []) ∧
    (extOf f ∉ ALLOWED_EXT →
      (predict env req db).db = db ∧
      (predict env req db).computed = none ∧
      (req.wantsJson = true →
        (predict env req db).response =
          ⟨400, .jsonError "File type not allowed" none⟩) ∧
      (req.wantsJson = false →
        (predict env req db).response =
          ⟨200, .dashboardHtml (some "File type not allowed")⟩)) := by
  have hAl : allowed_file f = true ↔ extOf f ∈ ALLOWED_EXT := by
    simp [allowed_file]
  constructor
  · constructor
    · intro hmem
      have h3 : allowed_file f = true := hAl.mpr hmem
      by_cases h4 : extOf (env.sec f) = "webp"
      · by_cases h5 : env.convertOk = true
        · rw [predict_route_webp_ok env req db f hf hne hpn h3 h4 h5,
            predictInfer_files]
          split <;> simp
        · rw [predict_route_webp_fail env req db f hf hne hpn h3 h4 h5]
          simp
      · rw [predict_route_nonwebp env req db f hf hne hpn h3 h4,
          predictInfer_files]
        simp
    · intro hfiles
      by_contra hmem
      have h3 : ¬ allowed_file f = true := fun h => hmem (hAl.mp h)
      rw [predict_route_not_allowed env req db f hf hne hpn h3,
        errorResponse_files] at hfiles
      exact hfiles rfl
  · intro hmem
    have h3 : ¬ allowed_file f = true := fun h => hmem (hAl.mp h)
    rw [predict_route_not_allowed env req db f hf hne hpn h3]
    refine ⟨errorResponse_db .., errorResponse_computed .., ?_, ?_⟩
    · intro hw
      rw [errorResponse_response, if_pos hw]
    · intro hw
      rw [errorResponse_response, if_neg (by simp [hw])]

/-- Disallowed-extension upload in HTML mode. -/
def reqC6html : PredictRequest := ⟨some "scan.bmp", some "Jane", false⟩

/-- Counterexample to C6 as stated: the bmp upload is rejected — no file
is saved — but in HTML mode the rejection has status 200, not 400. -/
theorem C6_extension_gate_counterexample :
    (predict env10 reqC6html emptyDB).files = [] ∧
    (predict env10 reqC6html emptyDB).response.status = 200 ∧
    ¬ (predict env10 reqC6html emptyDB).response.status = 400 := by
  exact ⟨rfl, rfl, by decide⟩

/-- Allowed-extension upload in JSON mode. -/
def reqC6bad : PredictRequest := ⟨some "scan.bmp", some "Jane", true⟩

/-- Witness for C6: a png upload is accepted, a bmp upload is rejected
with 400 in JSON mode. -/
theorem C6_extension_gate_witness :
    (¬ (predict env10 req10 emptyDB).files = []) ∧
    (predict env10 reqC6bad emptyDB).response =
      ⟨400, .jsonError "File type not allowed" none⟩ := by
  constructor
  · exact (C6_extension_gate env10 req10 emptyDB "a.png" rfl (by decide)
      (by decide)).1.mp (by decide)
  · exact ((C6_extension_gate env10 reqC6bad emptyDB "scan.bmp" rfl (by decide)
      (by decide)).2 (by decide)).2.2.1 rfl

/-! ## Claim C5 -/

theorem hasSuffix_append_left (a b suf : String) (h : hasSuffix b suf) :
    hasSuffix (a ++ b) suf := by
  show suf.data <:+ (a ++ b).data
  have h2 : b.data <:+ (a ++ b).data := hasSuffix_append a b
  exact List.IsSuffix.trans h h2

/-- Claim C5 (amended): a validated upload whose (sanitized) name has
extension webp either gets re-encoded — a .png is then stored and is the
saved name the returned image_path refers to; the original .webp is then
deleted, but a failed `os.remove` is swallowed (app.py lines 244 to 247),
so the directory is free of .webp files exactly when that deletion
succeeds — or, when the decode/re-encode throws, the pipeline aborts
before inference with the "WEBP conversion failed" error: status 400 in
JSON mode but status 200 (rendered dashboard) in HTML mode (app.py lines
236 to 255). -/
theorem C5_webp_becomes_png (env : Env) (req : PredictRequest) (db : DB)
    (f : String) (hf : req.filePart = some f) (hne : ¬ f = "")
    (hpn : ¬ pyStrip (req.patientNameField.getD "") = "")
    (h3 : allowed_file f = true) (h4 : extOf (env.sec f) = "webp") :
    (env.convertOk = true →
      (predict env req db).files =
        (if env.removeOk then
           [beforeLast '.' (env.ts ++ "_" ++ env.sec f) ++ ".png"]
         else [env.ts ++ "_" ++ env.sec f,
           beforeLast '.' (env.ts ++ "_" ++ env.sec f) ++ ".png"]) ∧
      hasSuffix (beforeLast '.' (env.ts ++ "_" ++ env.sec f) ++ ".png")
        ".png" ∧
      (env.removeOk = true →
        ∀ g ∈ (predict env req db).files,
          hasSuffix g ".png" ∧ ¬ hasSuffix g ".webp") ∧
      (∀ c, (predict env req db).computed = some c →
        hasSuffix c.image_path ".png")) ∧
    (¬ env.convertOk = true →
      (predict env req db).computed = none ∧
      (predict env req db).db = db ∧
      (req.wantsJson = true →
        (predict env req db).response =
          ⟨400, .jsonError "WEBP conversion failed" (some env.convErr)⟩) ∧
      (req.wantsJson = false →
        (predict env req db).response =
          ⟨200, .dashboardHtml
            (some ("WEBP conversion failed: " ++ env.convErr))⟩)) := by
  constructor
  · intro h5
    have hroute := predict_route_webp_ok env req db f hf hne hpn h3 h4 h5
    have hpng :
        hasSuffix (beforeLast '.' (env.ts ++ "_" ++ env.sec f) ++ ".png")
          ".png" := hasSuffix_append _ _
    refine ⟨?_, hpng, ?_, ?_⟩
    · rw [hroute, predictInfer_files]
    · intro hrm g hg
      rw [hroute, predictInfer_files, hrm, if_pos rfl,
        List.mem_singleton] at hg
      subst hg
      exact ⟨hpng, hasSuffix_png_not_webp _ hpng⟩
    · intro c hc
      rw [hroute] at hc
      rcases predictInfer_computed_cases env req db
          (beforeLast '.' (env.ts ++ "_" ++ env.sec f) ++ ".png")
          (pyStrip (req.patientNameField.getD ""))
          (if env.removeOk then
             [beforeLast '.' (env.ts ++ "_" ++ env.sec f) ++ ".png"]
           else [env.ts ++ "_" ++ env.sec f,
             beforeLast '.' (env.ts ++ "_" ++ env.sec f) ++ ".png"])
          with hnone | ⟨p, it, hsome⟩
      · rw [hnone] at hc; cases hc
      · rw [hsome] at hc
        injection hc with hcr
        subst hcr
        show hasSuffix ("/static/uploads/" ++
          (beforeLast '.' (env.ts ++ "_" ++ env.sec f) ++ ".png")) ".png"
        exact hasSuffix_append_left _ _ _ hpng
  · intro h5
    rw [predict_route_webp_fail env req db f hf hne hpn h3 h4 h5]
    refine ⟨rfl, rfl, ?_, ?_⟩
    · intro hw
      show (if req.wantsJson then _ else _) = _
      rw [if_pos hw]
    · intro hw
      show (if req.wantsJson then _ else _) = _
      rw [if_neg (by simp [hw])]

/-- Environment whose WEBP re-encode throws. -/
def env5 : Env :=
  ⟨fun s => s, "20250101", "250101", 0, false, .ok 0, 0, 4/5, 1/100, false,
   true, "boom", true⟩

/-- Environment whose re-encode succeeds but whose `os.remove` of the
original WEBP throws (the source swallows that exception). -/
def env5rm : Env :=
  ⟨fun s => s, "20250101", "250101", 0, false, .ok 0, 0, 4/5, 1/100, true,
   false, "", true⟩

/-- WEBP upload in HTML mode. -/
def reqC5html : PredictRequest := ⟨some "x.webp", some "Jane", false⟩

/-- WEBP upload in JSON mode against the healthy environment. -/
def reqC5json : PredictRequest := ⟨some "x.webp", some "Jane", true⟩

/-- Counterexample to C5 as stated, on both counts: when the re-encode
throws on an HTML-mode request the pipeline does abort before inference,
but the conversion error is returned with status 200, not 400; and when
the `os.remove` of the original WEBP throws (swallowed by the source),
the upload directory keeps a residual .webp file next to the .png. -/
theorem C5_webp_becomes_png_counterexample :
    ((predict env5 reqC5html emptyDB).computed = none ∧
     (predict env5 reqC5html emptyDB).response.status = 200 ∧
     ¬ (predict env5 reqC5html emptyDB).response.status = 400) ∧
    ((predict env5rm reqC5json emptyDB).files =
       ["20250101_x.webp", "20250101_x.png"] ∧
     hasSuffix "20250101_x.webp" ".webp") := by
  exact ⟨⟨rfl, rfl, by decide⟩, by decide, by decide⟩

/-- Witness for C5: the concrete webp upload (successful re-encode and
successful delete) ends as a single stored png. -/
theorem C5_webp_becomes_png_witness :
    (predict env10 reqC5json emptyDB).files =
      (if env10.removeOk then
         [beforeLast '.' (env10.ts ++ "_" ++ env10.sec "x.webp") ++ ".png"]
       else [env10.ts ++ "_" ++ env10.sec "x.webp",
         beforeLast '.' (env10.ts ++ "_" ++ env10.sec "x.webp") ++ ".png"]) ∧
    (∀ g ∈ (predict env10 reqC5json emptyDB).files,
      hasSuffix g ".png" ∧ ¬ hasSuffix g ".webp") := by
  have h := (C5_webp_becomes_png env10 reqC5json emptyDB "x.webp" rfl
    (by decide) (by decide) (by decide) (by decide)).1 rfl
  exact ⟨h.1, h.2.2.1 rfl⟩

/-! ## Claim C7 -/

theorem predictInfer_dbOk_response_computed (env : Env) (req : PredictRequest)
    (db : DB) (sn pn : String) (fs : List String) (b : Bool) :
    (predictInfer { env with dbOk := b } req db sn pn fs).response =
      (predictInfer env req db sn pn fs).response ∧
    (predictInfer { env with dbOk := b } req db sn pn fs).computed =
      (predictInfer env req db sn pn fs).computed := by
  unfold predictInfer
  dsimp only
  by_cases hm : env.modelLoaded = true
  · rw [if_pos hm, if_pos hm]
    cases hr : env.modelResult with
    | error e => exact ⟨rfl, rfl⟩
    | ok prob =>
      constructor
      · rw [predictFinish_response, predictFinish_response]
      · rw [predictFinish_computed, predictFinish_computed]
  · rw [if_neg hm, if_neg hm]
    constructor
    · rw [predictFinish_response, predictFinish_response]
    · rw [predictFinish_computed, predictFinish_computed]

theorem predictInfer_db_noCommit (env : Env) (req : PredictRequest) (db : DB)
    (sn pn : String) (fs : List String) (hd : env.dbOk = false) :
    (predictInfer env req db sn pn fs).db = db := by
  unfold predictInfer
  by_cases hm : env.modelLoaded = true
  · rw [if_pos hm]
    cases hr : env.modelResult with
    | error e => exact errorResponse_db ..
    | ok prob => rw [predictFinish_db, hd]; simp
  · rw [if_neg hm]
    rw [predictFinish_db, hd]
    simp

theorem predictInfer_success_status (env : Env) (req : PredictRequest)
    (db : DB) (sn pn : String) (fs : List String) :
    ∀ c, (predictInfer env req db sn pn fs).computed = some c →
      (predictInfer env req db sn pn fs).response.status = 200 := by
  intro c hc
  unfold predictInfer at hc ⊢
  by_cases hm : env.modelLoaded = true
  · rw [if_pos hm] at hc ⊢
    cases hr : env.modelResult with
    | error e =>
      rw [hr] at hc
      dsimp only at hc
      rw [errorResponse_computed] at hc
      cases hc
    | ok prob => exact predictFinish_status ..
  · rw [if_neg hm] at hc ⊢
    exact predictFinish_status ..

theorem predict_dbOk_response_computed (env : Env) (req : PredictRequest)
    (db : DB) (b : Bool) :
    (predict { env with dbOk := b } req db).response =
      (predict env req db).response ∧
    (predict { env with dbOk := b } req db).computed =
      (predict env req db).computed := by
  obtain ⟨fp, pnf, wj⟩ := req
  unfold predict
  dsimp only
  cases fp with
  | none => exact ⟨rfl, rfl⟩
  | some f =>
    dsimp only
    by_cases h1 : f = ""
    · rw [if_pos h1, if_pos h1]; exact ⟨rfl, rfl⟩
    rw [if_neg h1, if_neg h1]
    by_cases h2 : pyStrip (pnf.getD "") = ""
    · rw [if_pos h2, if_pos h2]; exact ⟨rfl, rfl⟩
    rw [if_neg h2, if_neg h2]
    by_cases h3 : ¬ allowed_file f = true
    · rw [if_pos h3, if_pos h3]; exact ⟨rfl, rfl⟩
    rw [if_neg h3, if_neg h3]
    by_cases h4 : extOf (env.sec f) = "webp"
    · rw [if_pos h4, if_pos h4]
      by_cases h5 : env.convertOk = true
      · rw [if_pos h5, if_pos h5]
        exact predictInfer_dbOk_response_computed env ⟨some f, pnf, wj⟩ db _ _ _ b
      · rw [if_neg h5, if_neg h5]
        cases wj with
        | true => exact ⟨rfl, rfl⟩
        | false => exact ⟨rfl, rfl⟩
    · rw [if_neg h4, if_neg h4]
      exact predictInfer_dbOk_response_computed env ⟨some f, pnf, wj⟩ db _ _ _ b

theorem predict_db_noCommit (env : Env) (req : PredictRequest) (db : DB)
    (hd : env.dbOk = false) : (predict env req db).db = db := by
  obtain ⟨fp, pnf, wj⟩ := req
  unfold predict
  dsimp only
  cases fp with
  | none => exact errorResponse_db ..
  | some f =>
    dsimp only
    by_cases h1 : f = ""
    · rw [if_pos h1]; exact errorResponse_db ..
    rw [if_neg h1]
    by_cases h2 : pyStrip (pnf.getD "") = ""
    · rw [if_pos h2]; exact errorResponse_db ..
    rw [if_neg h2]
    by_cases h3 : ¬ allowed_file f = true
    · rw [if_pos h3]; exact errorResponse_db ..
    rw [if_neg h3]
    by_cases h4 : extOf (env.sec f) = "webp"
    · rw [if_pos h4]
      by_cases h5 : env.convertOk = true
      · rw [if_pos h5]
        exact predictInfer_db_noCommit env ⟨some f, pnf, wj⟩ db _ _ _ hd
      · rw [if_neg h5]
        cases wj with
        | true => rfl
        | false => rfl
    · rw [if_neg h4]
      exact predictInfer_db_noCommit env ⟨some f, pnf, wj⟩ db _ _ _ hd

theorem predict_success_status (env : Env) (req : PredictRequest) (db : DB) :
    ∀ c, (predict env req db).computed = some c →
      (predict env req db).response.status = 200 := by
  obtain ⟨fp, pnf, wj⟩ := req
  intro c hc
  unfold predict at hc ⊢
  dsimp only at hc ⊢
  cases fp with
  | none =>
    rw [errorResponse_computed] at hc
    cases hc
  | some f =>
    dsimp only at hc ⊢
    by_cases h1 : f = ""
    · rw [if_pos h1] at hc ⊢
      rw [errorResponse_computed] at hc
      cases hc
    rw [if_neg h1] at hc ⊢
    by_cases h2 : pyStrip (pnf.getD "") = ""
    · rw [if_pos h2] at hc ⊢
      rw [errorResponse_computed] at hc
      cases hc
    rw [if_neg h2] at hc ⊢
    by_cases h3 : ¬ allowed_file f = true
    · rw [if_pos h3] at hc ⊢
      rw [errorResponse_computed] at hc
      cases hc
    rw [if_neg h3] at hc ⊢
    by_cases h4 : extOf (env.sec f) = "webp"
    · rw [if_pos h4] at hc ⊢
      by_cases h5 : env.convertOk = true
      · rw [if_pos h5] at hc ⊢
        exact predictInfer_success_status env ⟨some f, pnf, wj⟩ db _ _ _ c hc
      · rw [if_neg h5] at hc ⊢
        cases wj with
        | true => rw [if_pos rfl] at hc; cases hc
        | false => rw [if_neg (by simp)] at hc; cases hc
    · rw [if_neg h4] at hc ⊢
      exact predictInfer_success_status env ⟨some f, pnf, wj⟩ db _ _ _ c hc

/-- Claim C7: a persistence failure neither changes the response nor
surfaces to the client: the response and the computed classification are
the same whether the commit succeeds or fails, a failed commit leaves the
table untouched, and whenever a classification was computed the response
status is 200 (app.py lines 283 to 298: the insert is wrapped in a
blanket try/except that only logs). -/
theorem C7_persistence_failure_invisible (env : Env) (req : PredictRequest)
    (db : DB) :
    (predict { env with dbOk := false } req db).response =
      (predict { env with dbOk := true } req db).response ∧
    (predict { env with dbOk := false } req db).computed =
      (predict { env with dbOk := true } req db).computed ∧
    (predict { env with dbOk := false } req db).db = db ∧
    (∀ c, (predict env req db).computed = some c →
      (predict env req db).response.status = 200) := by
  refine ⟨?_, ?_, ?_, predict_success_status env req db⟩
  · exact (predict_dbOk_response_computed env req db false).1.trans
      (predict_dbOk_response_computed env req db true).1.symm
  · exact (predict_dbOk_response_computed env req db false).2.trans
      (predict_dbOk_response_computed env req db true).2.symm
  · exact predict_db_noCommit { env with dbOk := false } req db rfl

/-- Witness for C7 at the concrete demo request. -/
theorem C7_persistence_failure_invisible_witness :
    (predict { env10 with dbOk := false } req10 emptyDB).response =
      (predict { env10 with dbOk := true } req10 emptyDB).response ∧
    (predict { env10 with dbOk := false } req10 emptyDB).db = emptyDB ∧
    (predict env10 req10 emptyDB).response.status = 200 := by
  have h := C7_persistence_failure_invisible env10 req10 emptyDB
  exact ⟨h.1, h.2.2.1, h.2.2.2 _ rfl⟩

/-! ## Claim C3 -/

theorem count_le_one_of_nodup (rows : List PredRow)
    (h : (rows.map (fun r => r.scan_id)).Nodup) (sid : String) :
    (rows.filter (fun r => r.scan_id == sid)).length ≤ 1 := by
  induction rows with
  | nil => simp
  | cons r rs ih =>
    rw [List.map_cons, List.nodup_cons] at h
    by_cases he : (r.scan_id == sid) = true
    · rw [@List.filter_cons_of_pos _ (fun x => x.scan_id == sid) r rs he]
      have hnil : rs.filter (fun x => x.scan_id == sid) = [] := by
        rw [List.filter_eq_nil_iff]
        intro a ha hbeq
        apply h.1
        rw [List.mem_map]
        refine ⟨a, ha, ?_⟩
        have h1 : r.scan_id = sid := by simpa using he
        have h2 : a.scan_id = sid := by simpa using hbeq
        rw [h2, h1]
      rw [hnil]
      simp
    · rw [@List.filter_cons_of_neg _ (fun x => x.scan_id == sid) r rs he]
      exact ih h.2

theorem insert_prediction_ok (db : DB) (c : UpsertCall)
    (h : (db.rows.map (fun r => r.scan_id)).Nodup) :
    ∃ db', insert_prediction db c = .ok db' ∧
      (db'.rows.map (fun r => r.scan_id)).Nodup := by
  unfold insert_prediction one_or_none
  cases hf : db.rows.filter (fun r => r.scan_id == c.scan_id) with
  | nil =>
    refine ⟨_, rfl, ?_⟩
    rw [List.map_append, List.nodup_append]
    refine ⟨h, by simp, ?_⟩
    intro a ha hb
    rw [List.mem_map] at ha
    obtain ⟨r, hr, hra⟩ := ha
    have hb' : a = c.scan_id := by
      simpa [newRow] using hb
    have hcontr := List.filter_eq_nil_iff.mp hf r hr
    apply hcontr
    simp only [beq_iff_eq]
    rw [hra, hb']
  | cons r rest =>
    cases rest with
    | nil =>
      refine ⟨_, rfl, ?_⟩
      have hmm : (db.rows.map
            (fun x => if x.scan_id == c.scan_id then updateRow c x else x)).map
            (fun r => r.scan_id) = db.rows.map (fun r => r.scan_id) := by
        rw [List.map_map]
        apply List.map_congr_left
        intro a _
        by_cases hx : (a.scan_id == c.scan_id) = true
        · show ((if a.scan_id == c.scan_id then updateRow c a else a).scan_id)
            = a.scan_id
          rw [if_pos hx]
          rfl
        · show ((if a.scan_id == c.scan_id then updateRow c a else a).scan_id)
            = a.scan_id
          rw [if_neg hx]
      rw [hmm]
      exact h
    | cons r2 rest2 =>
      exfalso
      have hle := count_le_one_of_nodup db.rows h c.scan_id
      rw [hf] at hle
      simp at hle

theorem runCalls_ok_nodup (calls : List UpsertCall) :
    ∀ db, (db.rows.map (fun r => r.scan_id)).Nodup →
    ∃ db', runCalls db calls = .ok db' ∧
      (db'.rows.map (fun r => r.scan_id)).Nodup := by
  induction calls with
  | nil => exact fun db h => ⟨db, rfl, h⟩
  | cons c cs ih =>
    intro db h
    obtain ⟨db1, h1, hn1⟩ := insert_prediction_ok db c h
    obtain ⟨db2, h2, hn2⟩ := ih db1 hn1
    refine ⟨db2, ?_, hn2⟩
    unfold runCalls
    rw [h1]
    exact h2

/-- Claim C3: starting from an empty table, every sequence of
`insert_prediction` calls succeeds (no conflict error) and leaves at most
one row per scan_id; moreover a call whose scan_id is already present
keeps the row count and the id counter unchanged and overwrites every
payload field of the matching row, stamping the call's wall-clock time,
while all other rows are untouched (app.py lines 81 to 108). -/
theorem C3_upsert_single_row :
    (∀ calls : List UpsertCall, ∃ db',
      runCalls emptyDB calls = .ok db' ∧
      ∀ sid, scanCount db' sid ≤ 1) ∧
    (∀ (db : DB) (c : UpsertCall),
      (db.rows.map (fun r => r.scan_id)).Nodup →
      0 < scanCount db c.scan_id →
      ∃ db', insert_prediction db c = .ok db' ∧
        db'.rows.length = db.rows.length ∧ db'.nextId = db.nextId ∧
        (∀ r' ∈ db'.rows, r'.scan_id = c.scan_id →
          r'.patient_name = c.patient_name ∧ r'.label = c.label ∧
          r'.confidence = c.confidence ∧
          r'.inference_time = c.inference_time ∧
          r'.image_path = c.image_path ∧ r'.timestamp = c.now) ∧
        (∀ r' ∈ db'.rows, ¬ r'.scan_id = c.scan_id → r' ∈ db.rows)) := by
  constructor
  · intro calls
    obtain ⟨db', hrun, hnodup⟩ := runCalls_ok_nodup calls emptyDB (by simp [emptyDB])
    exact ⟨db', hrun, fun sid => count_le_one_of_nodup db'.rows hnodup sid⟩
  · intro db c h hp
    unfold scanCount at hp
    unfold insert_prediction one_or_none
    cases hf : db.rows.filter (fun r => r.scan_id == c.scan_id) with
    | nil =>
      rw [hf] at hp
      simp at hp
    | cons r rest =>
      cases rest with
      | nil =>
        refine ⟨_, rfl, by simp, rfl, ?_, ?_⟩
        · intro r' hr' hsid
          rw [List.mem_map] at hr'
          obtain ⟨a, ha, hra⟩ := hr'
          by_cases hx : (a.scan_id == c.scan_id) = true
          · rw [if_pos hx] at hra
            subst hra
            exact ⟨rfl, rfl, rfl, rfl, rfl, rfl⟩
          · rw [if_neg hx] at hra
            subst hra
            exact absurd (by simpa using hsid) hx
        · intro r' hr' hsid
          rw [List.mem_map] at hr'
          obtain ⟨a, ha, hra⟩ := hr'
          by_cases hx : (a.scan_id == c.scan_id) = true
          · rw [if_pos hx] at hra
            exfalso
            apply hsid
            rw [← hra]
            show a.scan_id = c.scan_id
            simpa using hx
          · rw [if_neg hx] at hra
            subst hra
            exact ha
      | cons r2 rest2 =>
        exfalso
        have hle := count_le_one_of_nodup db.rows h c.scan_id
        rw [hf] at hle
        simp at hle

/-- First upsert call of the collision scenario. -/
def callA : UpsertCall := ⟨5, "A250101", "Jane", "Normal", 1, 1,
  "/static/uploads/a.png"⟩

/-- Second upsert call colliding on the same scan_id. -/
def callB : UpsertCall := ⟨6, "A250101", "Bob", "Fractured", 0, 1,
  "/static/uploads/b.png"⟩

/-- One-row table already carrying the colliding scan_id. -/
def dbW : DB :=
  ⟨[⟨1, "A250101", "Jane", "Normal", 1, 1, "/static/uploads/a.png", 5, none⟩],
   2⟩

/-- Witness for C3: the concrete colliding pair of calls. -/
theorem C3_upsert_single_row_witness :
    (∃ db', runCalls emptyDB [callA, callB] = .ok db' ∧
      ∀ sid, scanCount db' sid ≤ 1) ∧
    (∃ db', insert_prediction dbW callB = .ok db' ∧
      db'.rows.length = dbW.rows.length ∧ db'.nextId = dbW.nextId ∧
      (∀ r' ∈ db'.rows, r'.scan_id = callB.scan_id →
        r'.patient_name = callB.patient_name ∧ r'.label = callB.label ∧
        r'.confidence = callB.confidence ∧
        r'.inference_time = callB.inference_time ∧
        r'.image_path = callB.image_path ∧ r'.timestamp = callB.now) ∧
      (∀ r' ∈ db'.rows, ¬ r'.scan_id = callB.scan_id → r' ∈ dbW.rows)) := by
  exact ⟨C3_upsert_single_row.1 [callA, callB],
    C3_upsert_single_row.2 dbW callB (by decide) (by decide)⟩

/-! ## Claim C4 -/

theorem mem_insertDesc (r : PredRow) (l : List PredRow) (y : PredRow) :
    y ∈ insertDesc r l ↔ y = r ∨ y ∈ l := by
  induction l with
  | nil => simp [insertDesc]
  | cons x xs ih =>
    unfold insertDesc
    by_cases h : x.id ≤ r.id
    · rw [if_pos h]
      simp
    · rw [if_neg h]
      simp [ih]
      tauto

theorem pairwise_insertDesc (r : PredRow) (l : List PredRow)
    (h : l.Pairwise idDescRel) :
    (insertDesc r l).Pairwise idDescRel := by
  induction l with
  | nil => simp [insertDesc]
  | cons x xs ih =>
    rw [List.pairwise_cons] at h
    unfold insertDesc
    by_cases hx : x.id ≤ r.id
    · rw [if_pos hx]
      rw [List.pairwise_cons]
      constructor
      · intro y hy
        rcases List.mem_cons.mp hy with hy | hy
        · subst hy
          exact hx
        · exact le_trans (h.1 y hy) hx
      · rw [List.pairwise_cons]
        exact h
    · rw [if_neg hx]
      rw [List.pairwise_cons]
      constructor
      · intro y hy
        rcases (mem_insertDesc r xs y).mp hy with hy | hy
        · subst hy
          exact le_of_not_le hx
        · exact h.1 y hy
      · exact ih h.2

theorem sortByIdDesc_pairwise (l : List PredRow) :
    (sortByIdDesc l).Pairwise idDescRel := by
  induction l with
  | nil => simp [sortByIdDesc]
  | cons x xs ih => exact pairwise_insertDesc x (sortByIdDesc xs) ih

/-- Claim C4 (amended): for every nonnegative limit, the recent query
returns at most `limit` rows ordered by primary key descending; but the
limit of GET /api/recent is NOT sanitized to a positive integer — it is
only converted with `int(...)` and handed to the query unchanged, zero and
negative values included (app.py lines 132 to 149 and 329 to 337). -/
theorem C4_recent_limit :
    (∀ (db : DB) (k : Int) (out : List PredRow), 0 ≤ k →
      query_recent_rows db.rows k = .ok out →
      out.length ≤ k.toNat ∧ out.Pairwise idDescRel) ∧
    (∀ (s : String) (k : Int), pyInt s = some k →
      api_recent_used_limit (some s) = some k) := by
  constructor
  · intro db k out hk hq
    unfold query_recent_rows at hq
    rw [if_neg (not_lt.mpr hk)] at hq
    injection hq with hq
    subst hq
    constructor
    · exact List.length_take_le ..
    · exact List.Pairwise.sublist (List.take_sublist ..)
        (sortByIdDesc_pairwise db.rows)
  · intro s k hp
    unfold api_recent_used_limit
    exact hp

/-- Counterexample to C4 as stated: the caller-supplied value "0" passes
`int(...)` and is used as the limit although it is not a positive
integer — no sanitization happens. -/
theorem C4_recent_limit_counterexample :
    ¬ (∀ (s : String) (k : Int),
        api_recent_used_limit (some s) = some k → 0 < k) := by
  intro h
  have h0 := h "0" 0 (by decide)
  exact absurd h0 (by decide)

def rowW1 : PredRow :=
  ⟨1, "A1", "Jane", "Normal", 1, 1, "/static/uploads/a.png", 5, none⟩

def rowW2 : PredRow :=
  ⟨2, "A2", "Bob", "Fractured", 0, 1, "/static/uploads/b.png", 6, none⟩

def dbW4 : DB := ⟨[rowW1, rowW2], 3⟩

/-- Witness for C4: a two-row table queried with limit 1 yields the single
most recent row, and a concrete numeric parameter is passed through. -/
theorem C4_recent_limit_witness :
    (0 : Int) ≤ 1 ∧ query_recent_rows dbW4.rows 1 = .ok [rowW2] ∧
    ([rowW2].length ≤ (1 : Int).toNat ∧ [rowW2].Pairwise idDescRel) ∧
    pyInt "7" = some 7 ∧ api_recent_used_limit (some "7") = some 7 := by
  have h1 : query_recent_rows dbW4.rows 1 = .ok [rowW2] := rfl
  exact ⟨by decide, h1, C4_recent_limit.1 dbW4 1 [rowW2] (by decide) h1,
    by decide, C4_recent_limit.2 "7" 7 (by decide)⟩

/-! ## Claim C8 -/

/-- One-row table whose row carries a true label. -/
def rowLab : PredRow :=
  ⟨3, "A3", "Kim", "Normal", 1, 1, "/static/uploads/c.png", 7, some "Normal"⟩

/-- Claim C8 (the func.case bug): on the empty table the stats are all
zero/null as claimed; every successful return of `query_stats` carries
`model_accuracy = none` and `labelled_count = 0`; and any table holding a
labelled row makes `query_stats` raise — `func.case` at app.py line 119
is the generic-function namespace, not the CASE construct — so the
non-null `model_accuracy` the claim describes is unreachable and
GET /api/stats answers 500 for every labelled table. -/
theorem C8_stats_empty_and_accuracy_null :
    query_stats [] = .ok ⟨0, 0, none, none, 0⟩ ∧
    (∀ (rows : List PredRow) (out : Stats), query_stats rows = .ok out →
      out.model_accuracy = none ∧ out.labelled_count = 0) ∧
    (∀ rows : List PredRow,
      0 < (rows.filter (fun r => r.true_label.isSome)).length →
      query_stats rows = .error "func.case is not the case construct") := by
  refine ⟨rfl, ?_, ?_⟩
  · intro rows out h
    unfold query_stats at h
    dsimp only at h
    by_cases hl : 0 < (rows.filter (fun r => r.true_label.isSome)).length
    · rw [if_pos hl] at h
      cases h
    · rw [if_neg hl] at h
      injection h with h
      subst h
      refine ⟨rfl, ?_⟩
      show (rows.filter (fun r => r.true_label.isSome)).length = 0
      omega
  · intro rows hl
    unfold query_stats
    dsimp only
    rw [if_pos hl]

/-- Witness for C8: the one-row unlabelled table succeeds with null
accuracy, the one-row labelled table raises. -/
theorem C8_stats_empty_and_accuracy_null_witness :
    ((query_stats [rowW1]).map
      (fun out => decide (out.model_accuracy = none) &&
                  decide (out.labelled_count = 0))) = .ok true ∧
    query_stats [rowLab] = .error "func.case is not the case construct" := by
  have h := C8_stats_empty_and_accuracy_null
  refine ⟨?_, h.2.2 [rowLab] (by decide)⟩
  cases hx : query_stats [rowW1] with
  | error e =>
    have hok : (query_stats [rowW1]).toOption.isSome = true := rfl
    rw [hx] at hok
    simp [Except.toOption] at hok
  | ok out =>
    have hp := h.2.1 [rowW1] out hx
    simp [Except.map, decide_eq_true hp.1, decide_eq_true hp.2]

/-! ## Claim C9 -/

/-- Claim C9: every /download_report request yields a 200 response with a
single-page PDF attachment named xray_report.pdf; an unresolvable image
path (tried as given, then as its basename under the upload directory),
or a failing embed, only drops the image from the page — never a failure
response (app.py lines 341 to 382). -/
theorem C9_report_always_pdf (disk : List String) (embedOk : Bool)
    (nowDate : String) (req : ReportRequest) :
    (download_report disk embedOk nowDate req).status = 200 ∧
    (download_report disk embedOk nowDate req).attachmentName =
      "xray_report.pdf" ∧
    (download_report disk embedOk nowDate req).mimetype =
      "application/pdf" ∧
    (download_report disk embedOk nowDate req).report.pages = 1 ∧
    (resolve_image disk req.image_path = none →
      (download_report disk embedOk nowDate req).report.image = none) ∧
    (embedOk = false →
      (download_report disk embedOk nowDate req).report.image = none) ∧
    (∀ p, (download_report disk embedOk nowDate req).report.image = some p →
      resolve_image disk req.image_path = some p) := by
  refine ⟨rfl, rfl, rfl, rfl, ?_, ?_, ?_⟩
  · intro h
    unfold download_report
    dsimp only
    rw [h]
  · intro hemb
    unfold download_report
    dsimp only
    cases hri : resolve_image disk req.image_path with
    | none => rfl
    | some q => rw [hemb]; simp
  · intro p hp
    unfold download_report at hp
    dsimp only at hp
    cases hri : resolve_image disk req.image_path with
    | none => rw [hri] at hp; cases hp
    | some q =>
      rw [hri] at hp
      cases hb : embedOk with
      | false => rw [hb] at hp; simp at hp
      | true =>
        rw [hb] at hp
        simp at hp
        rw [hp]

/-- Report request whose image path does not exist on disk. -/
def reqR : ReportRequest :=
  ⟨some "Normal", some "80.0", some "/static/uploads/nope.png", some "Jane",
   none⟩

/-- Witness for C9: report generation with an empty disk still yields the
one-page PDF attachment, image omitted. -/
theorem C9_report_always_pdf_witness :
    (download_report [] true "January 01, 2025" reqR).status = 200 ∧
    (download_report [] true "January 01, 2025" reqR).attachmentName =
      "xray_report.pdf" ∧
    (download_report [] true "January 01, 2025" reqR).report.pages = 1 ∧
    (download_report [] true "January 01, 2025" reqR).report.image = none := by
  have h := C9_report_always_pdf [] true "January 01, 2025" reqR
  exact ⟨h.1, h.2.1, h.2.2.2.1, h.2.2.2.2.1 (by decide)⟩
